import Mathlib

/-!
Shallow embedding of the content-moderation pipeline
(src/services/moderation_engine.ts, spam_detector.ts, rule_engine.ts,
sentiment_analyzer.ts, personal_info_detector.ts, toxicity_detector.ts,
profanity_detector.ts and src/types/content_moderation.ts), together with
proofs about it.

Modelling conventions:
- JavaScript strings are Lean `String`s (scanned as `List Char`);
- JavaScript floating-point numbers are rationals (`ℚ`);
- the JS `RegExp` engine, the `bad-words` blocklist and the `sentiment`
  valence lexicon are external to the repository; they enter the embedding
  either as explicit parameters or as data modelled from the spec (each such
  definition says so in its doc comment);
- `processing_time_ms` is wall-clock time and is not modelled.
-/

/-- Whitespace test used wherever the source relies on JS whitespace
(`trim`, `split(/\s+/)`, `\s` in regexes); covers the ASCII whitespace
characters. -/
def is_ws (c : Char) : Bool :=
  c == ' ' || c == '\t' || c == '\n' || c == '\r' || c == '\x0b' || c == '\x0c'

/-- Infix test on character lists (executable). -/
def infix_of : List Char → List Char → Bool
  | pat, [] => pat.isEmpty
  | pat, c :: rest => pat.isPrefixOf (c :: rest) || infix_of pat rest

/-- Substring test: `contains_sub s pat` models the JS `s.includes(pat)`. -/
def contains_sub (s pat : String) : Bool :=
  infix_of pat.data s.data

/-- Models `s.split(/\s+/)` from JS: split on maximal whitespace runs, keeping
the empty boundary tokens JS produces for leading/trailing whitespace. -/
def split_ws_go (cur : List Char) : List Char → List String
  | [] => [String.mk cur.reverse]
  | c :: rest =>
    if is_ws c then
      String.mk cur.reverse :: split_ws_go [] (rest.dropWhile is_ws)
    else
      split_ws_go (c :: cur) rest
termination_by l => l.length
decreasing_by
  · simp only [List.length_cons]
    have := (List.dropWhile_sublist is_ws (l := rest)).length_le
    omega
  · simp [List.length_cons]

def split_ws (s : String) : List String :=
  split_ws_go [] s.data

/-- Number of occurrences of a character, modelling `(s.match(/c/g) || []).length`. -/
def count_char (s : String) (c : Char) : Nat :=
  s.data.count c

/-- Number of ASCII uppercase letters, modelling `(s.match(/[A-Z]/g) || []).length`. -/
def count_upper (s : String) : Nat :=
  s.data.countP Char.isUpper

-- ---------------------------------------------------------------------------
-- Data model (src/types/content_moderation.ts)
-- ---------------------------------------------------------------------------

/-- The four values of the `ContentType` enum. -/
def content_type_values : List String := ["text", "image", "video", "audio"]

/-- The six values of the `PlatformType` enum. -/
def platform_values : List String :=
  ["twitter", "facebook", "instagram", "linkedin", "tiktok", "youtube"]

/-- SeverityLevel enum. -/
inductive SeverityLevel where
  | LOW
  | MEDIUM
  | HIGH
  | CRITICAL
deriving DecidableEq, BEq

/-- The `severity_scores` table of `calculate_overall_severity`
(LOW 1, MEDIUM 2, HIGH 3, CRITICAL 4). -/
def sev_score : SeverityLevel → Nat
  | .LOW => 1
  | .MEDIUM => 2
  | .HIGH => 3
  | .CRITICAL => 4

/-- ContentModerationRequest.  `content_type` and `platform` arrive from JSON
as plain strings and are validated against the enum value lists, so they are
embedded as `String`.  The unread `metadata` field is omitted. -/
structure ContentModerationRequest where
  content : String
  content_type : String
  platform : String
  user_id : Option String := none
deriving DecidableEq

/-- ModerationFlag. -/
structure ModerationFlag where
  type : String
  severity : SeverityLevel
  confidence : ℚ
  description : String
  flagged_text : Option String := none
  suggestion : Option String := none
deriving DecidableEq

/-- ContentModerationResponse (without the unmodelled `processing_time_ms`). -/
structure ContentModerationResponse where
  is_flagged : Bool
  flags : List ModerationFlag
  overall_severity : SeverityLevel
  confidence_score : ℚ
  safe_to_post : Bool
  recommendations : List String
deriving DecidableEq

/-- ModerationRule. -/
structure ModerationRule where
  id : String
  name : String
  description : String
  patterns : List String
  severity : SeverityLevel
  enabled : Bool
  platforms : List String
deriving DecidableEq

/-- ModerationConfig. -/
structure ModerationConfig where
  rules : List ModerationRule
  sensitivity_threshold : ℚ
  enable_sentiment_analysis : Bool
  enable_profanity_detection : Bool
  enable_toxicity_detection : Bool
  enable_spam_detection : Bool
  enable_hate_speech_detection : Bool
  enable_violence_detection : Bool
  enable_sexual_content_detection : Bool
  enable_personal_info_detection : Bool
deriving DecidableEq

/-- The validation error taxonomy of `validate_request` (§7 of the spec). -/
inductive ValidationError where
  | EmptyContent
  | ContentTooLong
  | InvalidContentType
  | InvalidPlatform
deriving DecidableEq

-- ---------------------------------------------------------------------------
-- Notification messages (src/constants/notifications.ts), those the engine uses
-- ---------------------------------------------------------------------------

def MSG_CONTENT_SAFE : String := "Content appears to be safe for posting"
def MSG_PROFANITY_DETECTED : String := "Profanity detected in content"
def MSG_TOXICITY_DETECTED : String := "Toxic content detected"
def MSG_PERSONAL_INFO_DETECTED : String := "Personal information detected"
def MSG_SPAM_DETECTED : String := "Spam-like content detected"
def MSG_NEGATIVE_SENTIMENT : String := "Content has negative sentiment"
def MSG_RECOMMEND_REVIEW : String := "Please review content before posting"
def MSG_RECOMMEND_EDIT : String := "Consider editing content to remove flagged elements"
def MSG_RECOMMEND_REPLACE : String := "Consider replacing flagged content"
def MSG_CHARACTER_LIMIT : String := "Content exceeds character limit"
def MSG_HASHTAG_LIMIT : String := "Too many hashtags detected"
def MSG_MENTION_LIMIT : String := "Too many mentions detected"

-- ---------------------------------------------------------------------------
-- ProfanityDetector (src/services/profanity_detector.ts)
-- ---------------------------------------------------------------------------

structure ProfanityCheckResult where
  is_profane : Bool
  profane_words : List String
  clean_text : String
deriving DecidableEq

/-- The `common_profane` reporting list hard-coded in `ProfanityDetector.check`. -/
def common_profane : List String := ["fuck", "shit", "bitch", "ass", "damn", "hell"]

/-- Word-level profanity test against a blocklist: a word is replaced when some
blocklist entry occurs in it case-insensitively (the spec's `case-insensitive
whole/partial-word substitution`, §4.2). -/
def bw_word_profane (blocklist : List String) (w : List Char) : Bool :=
  blocklist.any (fun b => contains_sub (String.mk w).toLower b)

/-- Modelled from the spec (§4.2): the `bad-words` filter's `clean` is library
code outside src.  It substitutes each blocklisted word of the text with a
same-length run of `*`, leaving whitespace intact. -/
def bw_clean_go (blocklist : List String) : List Char → List Char
  | [] => []
  | c :: rest =>
    if is_ws c then c :: bw_clean_go blocklist rest
    else
      let w := (c :: rest).takeWhile (fun ch => !is_ws ch)
      let rest2 := (c :: rest).drop w.length
      (if bw_word_profane blocklist w then
        List.replicate w.length '*'
      else w) ++ bw_clean_go blocklist rest2
termination_by l => l.length
decreasing_by
  · simp [List.length_cons]
  · have hw : ((c :: rest).takeWhile (fun ch => !is_ws ch)).length ≠ 0 := by
      simp only [List.takeWhile_cons]
      intro hcon
      split at hcon <;> simp_all
    have hle := (List.takeWhile_sublist (l := c :: rest) (fun ch => !is_ws ch)).length_le
    simp only [List.length_drop, List.length_cons] at *
    omega

def bw_clean (blocklist : List String) (content : String) : String :=
  String.mk (bw_clean_go blocklist content.data)

/-- ProfanityDetector.check, parameterized by the effective blocklist (the
`bad-words` list after the `removeWords` calls of `setup_custom_words`). -/
def profanity_check (blocklist : List String) (content : String) : ProfanityCheckResult :=
  let clean_content := bw_clean blocklist content
  let is_profane : Bool := clean_content ≠ content
  { is_profane := is_profane
    profane_words :=
      if is_profane then
        common_profane.filter (fun w => contains_sub content.toLower w)
      else []
    clean_text := clean_content }

/-- Modelled from the spec (§4.2, §9): the effective blocklist of the detector
is the `bad-words` library list (not in src) minus the words removed in
`setup_custom_words` (hell, damn, ass, bitch, piss, shit, and the business
terms).  Represented here by remaining entries of the library list; it keeps
the spec-noted asymmetry that the blocklist holds words outside the small
`common_profane` reporting set. -/
def profanity_blocklist : List String := ["fuck", "cunt", "dick"]

-- ---------------------------------------------------------------------------
-- SentimentAnalyzer (src/services/sentiment_analyzer.ts)
-- ---------------------------------------------------------------------------

structure SentimentAnalysisResult where
  score : ℚ
  comparative : ℚ
  tokens : List String
  words : List String
  positive : List String
  negative : List String
deriving DecidableEq

/-- Modelled from the spec (§4.3): the `sentiment` library's tokenizer is
library code outside src; it lowercases the text and splits it into words. -/
def sentiment_tokens (content : String) : List String :=
  (split_ws content.toLower).filter (fun t => !t.isEmpty)

/-- Valence of one token under a lexicon (0 when absent). -/
def token_valence (lex : List (String × ℚ)) (t : String) : ℚ :=
  ((lex.lookup t).getD 0)

/-- Modelled from the spec (§4.3): `analyze` of the `sentiment` library.
`score` is the sum of the token valences and `comparative` is
`score / token count` (0 when there are no tokens). -/
def sentiment_analyze (lex : List (String × ℚ)) (content : String) :
    SentimentAnalysisResult :=
  let tokens := sentiment_tokens content
  let score := (tokens.map (token_valence lex)).sum
  { score := score
    comparative := if tokens.length = 0 then 0 else score / (tokens.length : ℚ)
    tokens := tokens
    words := tokens.filter (fun t => decide (token_valence lex t ≠ 0))
    positive := tokens.filter (fun t => decide (0 < token_valence lex t))
    negative := tokens.filter (fun t => decide (token_valence lex t < 0)) }

/-- Modelled from the spec (§4.3): the valence lexicon is the library's base
AFINN lexicon (outside src) merged with the business-positive augmentation
registered in `setup_custom_analysis` (in src).  The twenty augmentation
entries are taken verbatim from the source; `bad → -3` is a representative
base-lexicon entry witnessing the negative valences the spec relies on
(`comparative < -0.3` flagging, the `very_negative` category). -/
def sentiment_lexicon : List (String × ℚ) :=
  [("innovative", 2), ("successful", 2), ("growth", 2), ("opportunity", 2),
   ("solution", 1), ("improve", 1), ("excellent", 2), ("amazing", 2),
   ("great", 1), ("good", 1), ("positive", 1), ("benefit", 1),
   ("advantage", 1), ("efficient", 1), ("effective", 1), ("reliable", 1),
   ("secure", 1), ("fast", 1), ("easy", 1), ("simple", 1),
   ("bad", -3)]

-- ---------------------------------------------------------------------------
-- ToxicityDetector (src/services/toxicity_detector.ts)
-- ---------------------------------------------------------------------------

structure ToxicityCheckResult where
  is_toxic : Bool
  toxicity_score : ℚ
  general_toxicity : ℚ
  hate_speech : ℚ
  violence : ℚ
  sexual_content : ℚ
deriving DecidableEq

/-- The `toxic_patterns` phrase-confidence map. -/
def toxic_patterns : List (String × ℚ) :=
  [("kill yourself", 9/10), ("you should die", 9/10), ("i hope you die", 9/10),
   ("go to hell", 7/10), ("fuck you", 8/10), ("you are stupid", 6/10),
   ("you are dumb", 6/10), ("you are an idiot", 7/10), ("shut up", 5/10),
   ("nobody cares", 5/10), ("you are worthless", 8/10), ("you are useless", 7/10)]

/-- Regex-template test for the hate-speech patterns of the shape
`<pre>[a-z]+<post>` compiled case-insensitively: at some position of the
lowercased text, `pre` is followed by a maximal nonempty ASCII-letter run
followed by `post`.  (Since `[a-z]` cannot match the leading space of `post`,
only the maximal run can succeed, so this is exactly the JS behaviour.) -/
def template_hit (pre post : String) (t : List Char) : Bool :=
  pre.data.isPrefixOf t &&
    (let r := t.drop pre.length
     let run := r.takeWhile Char.isLower
     !run.isEmpty && post.data.isPrefixOf (r.drop run.length))

def template_match (pre post : String) (content : String) : Bool :=
  content.toLower.data.tails.any (template_hit pre post)

/-- The `hate_speech_patterns` list, each entry translated to its
case-insensitive regex test: the three `[a-z]+` templates become
`template_match`, the five literal patterns become case-insensitive
substring containment. -/
def hate_speech_tests : List (String → Bool) :=
  [template_match "all " " are",            -- 'all [a-z]+ are'
   template_match "every " " is",           -- 'every [a-z]+ is'
   template_match "typical " "",            -- 'typical [a-z]+'
   fun content => contains_sub content.toLower "you people",
   fun content => contains_sub content.toLower "those people",
   fun content => contains_sub content.toLower "go back to",
   fun content => contains_sub content.toLower "you don\x27t belong",
   fun content => contains_sub content.toLower "you are not welcome"]

/-- The `violence_patterns` list. -/
def violence_patterns : List String :=
  ["i will kill", "i want to kill", "i should kill", "punch you", "hit you",
   "beat you", "attack you", "hurt you", "destroy you", "burn you",
   "shoot you", "stab you"]

/-- The `sexual_content_patterns` list. -/
def sexual_content_patterns : List String :=
  ["nude", "naked", "porn", "sex", "sexual", "intimate", "explicit",
   "adult content", "mature content"]

/-- ToxicityDetector.check. -/
def toxicity_check (content : String) : ToxicityCheckResult :=
  let lower_content := content.toLower
  let general0 := toxic_patterns.foldl
    (fun m pc => if contains_sub lower_content pc.1 then max m pc.2 else m) 0
  let hate := hate_speech_tests.foldl
    (fun m test => if test content then max m (8/10) else m) 0
  let violence := violence_patterns.foldl
    (fun m p => if contains_sub lower_content p then max m (9/10) else m) 0
  let sexual := sexual_content_patterns.foldl
    (fun m p => if contains_sub lower_content p then max m (7/10) else m) 0
  let caps_ratio : ℚ := (count_upper content : ℚ) / (content.length : ℚ)
  let general1 :=
    if caps_ratio > 7/10 ∧ content.length > 10 then max general0 (3/10) else general0
  let general2 :=
    if count_char content '!' > 3 ∨ count_char content '?' > 5 then
      max general1 (2/10)
    else general1
  let score := max (max general2 hate) (max violence sexual)
  { is_toxic := score > 5/10
    toxicity_score := score
    general_toxicity := general2
    hate_speech := hate
    violence := violence
    sexual_content := sexual }

-- ---------------------------------------------------------------------------
-- SpamDetector (src/services/spam_detector.ts)
-- ---------------------------------------------------------------------------

structure SpamCheckResult where
  is_spam : Bool
  spam_score : ℚ
deriving DecidableEq

/-- The `spam_patterns` phrase-confidence map. -/
def spam_patterns : List (String × ℚ) :=
  [("buy now", 7/10), ("limited time offer", 8/10), ("act now", 7/10),
   ("don\x27t miss out", 6/10), ("click here", 6/10), ("free money", 9/10),
   ("make money fast", 9/10), ("work from home", 7/10),
   ("earn money online", 8/10), ("get rich quick", 9/10),
   ("lose weight fast", 8/10), ("miracle cure", 9/10),
   ("100% guaranteed", 8/10), ("no risk", 7/10), ("limited supply", 7/10),
   ("exclusive offer", 6/10), ("secret method", 8/10),
   ("government secret", 9/10), ("bankruptcy", 7/10), ("debt relief", 7/10),
   ("credit repair", 7/10), ("investment opportunity", 6/10),
   ("hot singles", 9/10), ("meet singles", 8/10), ("enlarge your", 9/10),
   ("viagra", 9/10), ("cialis", 9/10)]

/-- Sum of the confidences of the spam phrases occurring in the lowercased
content (the first loop of `SpamDetector.check`). -/
def spam_phrase_score (lower_content : String) : ℚ :=
  spam_patterns.foldl
    (fun s pc => if contains_sub lower_content pc.1 then s + pc.2 else s) 0

/-- Counts the non-overlapping matches of one URL regex of the shape
`<head>[^\s]+`: scanning left to right, a match starts where `hd` recognizes a
head of length `n` followed by at least one non-whitespace character; the
greedy `[^\s]+` then consumes up to the next whitespace. -/
def scan_url_matches (hd : List Char → Option Nat) : List Char → Nat
  | [] => 0
  | c :: rest =>
    match hd (c :: rest) with
    | some n =>
      let after := (c :: rest).drop n
      let m := (after.takeWhile (fun ch => !is_ws ch)).length
      if h : m = 0 then scan_url_matches hd rest
      else 1 + scan_url_matches hd (after.drop m)
    | none => scan_url_matches hd rest
termination_by l => l.length
decreasing_by
  · simp [List.length_cons]
  · have h' : (((c :: rest).drop n).takeWhile (fun ch => !is_ws ch)).length ≠ 0 := h
    simp only [List.drop_drop, List.length_drop, List.length_cons]
    omega

/-- Head recognizer for `https?:\/\/`. -/
def http_head (l : List Char) : Option Nat :=
  if "https://".data.isPrefixOf l then some 8
  else if "http://".data.isPrefixOf l then some 7
  else none

/-- Head recognizer for a literal regex head such as `www.`. -/
def lit_head (h : String) (l : List Char) : Option Nat :=
  if h.data.isPrefixOf l then some h.length else none

/-- SpamDetector.count_urls: total match count of the five `url_patterns`
(`https?:\/\/[^\s]+`, `www\.[^\s]+`, `bit\.ly\/[^\s]+`, `tinyurl\.com\/[^\s]+`,
`goo\.gl\/[^\s]+`), each counted on the raw content. -/
def count_urls (content : String) : Nat :=
  scan_url_matches http_head content.data +
  scan_url_matches (lit_head "www.") content.data +
  scan_url_matches (lit_head "bit.ly/") content.data +
  scan_url_matches (lit_head "tinyurl.com/") content.data +
  scan_url_matches (lit_head "goo.gl/") content.data

/-- The words of length > 3 that occur more than 3 times in the
whitespace-split lowercased content (the `word_frequency` loop); their number
is what the 0.2-per-word rule pays for. -/
def repeated_words (content : String) : List String :=
  let words := split_ws content.toLower
  ((words.filter (fun w => w.length > 3)).dedup).filter
    (fun w => words.count w > 3)

/-- Matches `\d{n}` as a prefix, returning the remainder. -/
def take_digits : Nat → List Char → Option (List Char)
  | 0, l => some l
  | _ + 1, [] => none
  | n + 1, c :: l => if c.isDigit then take_digits n l else none

/-- Matches a literal character as a prefix, returning the remainder. -/
def take_lit (c : Char) : List Char → Option (List Char)
  | [] => none
  | c' :: l => if c' = c then some l else none

/-- Prefix test for `\d{4}-\d{4}-\d{4}-\d{4}` (the card-like pattern). -/
def card_at (t : List Char) : Bool :=
  (take_digits 4 t |>.bind (take_lit '-') |>.bind (take_digits 4)
    |>.bind (take_lit '-') |>.bind (take_digits 4) |>.bind (take_lit '-')
    |>.bind (take_digits 4)).isSome

/-- Prefix test for `\d{3}-\d{2}-\d{4}` (the SSN-like pattern). -/
def ssn_at (t : List Char) : Bool :=
  (take_digits 3 t |>.bind (take_lit '-') |>.bind (take_digits 2)
    |>.bind (take_lit '-') |>.bind (take_digits 4)).isSome

/-- Prefix test for `<a>\s+<b>` (e.g. `limited\s+time`), on lowercased text for
the `i` flag: the literal `a`, at least one whitespace character, then the
literal `b`.  Since `b` starts with a non-whitespace character, the greedy
`\s+` consuming the maximal run is the only way to match. -/
def lit_ws_lit (a b : String) (t : List Char) : Bool :=
  a.data.isPrefixOf t &&
    (let r := t.drop a.length
     let n := (r.takeWhile is_ws).length
     decide (1 ≤ n) && b.data.isPrefixOf (r.drop n))

/-- Prefix test for `free\s+[a-z]+` on lowercased text. -/
def free_word_at (t : List Char) : Bool :=
  "free".data.isPrefixOf t &&
    (let r := t.drop 4
     let n := (r.takeWhile is_ws).length
     decide (1 ≤ n) &&
       (match r.drop n with
        | c :: _ => c.isLower
        | [] => false))

/-- SpamDetector.has_suspicious_patterns: some of the eleven
`suspicious_patterns` regexes matches somewhere in the content (the
case-insensitive ones are tested on the lowercased content). -/
def has_suspicious_patterns (content : String) : Bool :=
  let l := content.data
  let ll := content.toLower.data
  l.tails.any card_at ||
  l.tails.any ssn_at ||
  l.tails.any (fun t => (take_digits 10 t).isSome) ||
  l.tails.any (fun t => (t.take 5).length = 5 && (t.take 5).all Char.isUpper) ||
  l.tails.any (fun t => match t with | '$' :: c :: _ => c.isDigit | _ => false) ||
  l.tails.any (fun t => match t with | '%' :: c :: _ => c.isDigit | _ => false) ||
  ll.tails.any free_word_at ||
  ll.tails.any (lit_ws_lit "limited" "time") ||
  ll.tails.any (lit_ws_lit "act" "now") ||
  ll.tails.any (lit_ws_lit "click" "here") ||
  ll.tails.any (lit_ws_lit "buy" "now")

/-- SpamDetector.check (`spam_indicators` and `clean_content` are
informational outputs never read by the engine, §9, and are omitted).
The repetitive-word loop adds 0.2 once per distinct repeated word, embedded
as `0.2 * (number of such words)`. -/
def spam_check (content : String) : SpamCheckResult :=
  let lower_content := content.toLower
  let s1 := spam_phrase_score lower_content
  let url_count := count_urls content
  let s2 := if url_count > 2 then s1 + (5/10) * (url_count : ℚ) else s1
  let caps_ratio : ℚ := (count_upper content : ℚ) / (content.length : ℚ)
  let s3 := if caps_ratio > 5/10 ∧ content.length > 20 then s2 + 4/10 else s2
  let s4 :=
    if count_char content '!' > 2 ∨ count_char content '?' > 3 then s3 + 3/10
    else s3
  let s5 := s4 + (2/10) * ((repeated_words content).length : ℚ)
  let s6 := if has_suspicious_patterns content then s5 + 6/10 else s5
  let spam_score := min s6 1
  { is_spam := spam_score > 6/10
    spam_score := spam_score }

-- ---------------------------------------------------------------------------
-- PersonalInfoDetector (src/services/personal_info_detector.ts)
-- ---------------------------------------------------------------------------

structure PersonalInfoCheckResult where
  has_personal_info : Bool
  confidence : ℚ
  detected_info : List String
  info_types : List String
deriving DecidableEq

/-- The per-pattern results of the JS regex engine (`content.match(pattern)`)
for the detector's patterns; the engine itself is external to the repository,
so `check` is parameterized over these match lists (a JS `null` result is the
empty list — `match` never returns an empty array). -/
structure PIIMatches where
  emails : List String
  phones : List (List String)     -- one list per entry of `phone_patterns` (4)
  ssns : List String
  credit_cards : List String
  addresses : List (List String)  -- one list per entry of `address_patterns` (2)
  names : List (List String)      -- one list per entry of `name_patterns` (2)

/-- The `personal_keywords` list of `PersonalInfoDetector.check`. -/
def personal_keywords : List String :=
  ["password", "pin", "account number", "routing number", "date of birth",
   "birthday", "ssn", "social security", "driver license", "passport",
   "id number"]

/-- State of the three accumulators (`detected_info`, `info_types`,
`confidence`) threaded through `PersonalInfoDetector.check`. -/
structure PIIAcc where
  detected : List String
  types : List String
  conf : ℚ

/-- One iteration of the phone-pattern loop. -/
def pii_phone_step (acc : PIIAcc) (phones : List String) : PIIAcc :=
  if phones = [] then acc
  else
    { detected := acc.detected ++ phones
      types := if acc.types.contains "phone" then acc.types
               else acc.types ++ ["phone"]
      conf := max acc.conf (8/10) }

/-- One iteration of the address-pattern loop. -/
def pii_address_step (acc : PIIAcc) (addresses : List String) : PIIAcc :=
  if addresses = [] then acc
  else
    { detected := acc.detected ++ addresses
      types := if acc.types.contains "address" then acc.types
               else acc.types ++ ["address"]
      conf := max acc.conf (7/10) }

/-- One iteration of the name-pattern loop (names only count when more than
one sequence was found or some other signal already fired). -/
def pii_name_step (acc : PIIAcc) (names : List String) : PIIAcc :=
  if names = [] then acc
  else if names.length > 1 ∨ acc.detected ≠ [] then
    { detected := acc.detected ++ names
      types := if acc.types.contains "name" then acc.types
               else acc.types ++ ["name"]
      conf := max acc.conf (6/10) }
  else acc

/-- One iteration of the keyword loop. -/
def pii_keyword_step (lower_content : String) (acc : PIIAcc) (keyword : String) :
    PIIAcc :=
  if contains_sub lower_content keyword then
    { detected := acc.detected
      types := acc.types ++ ["personal_keyword"]
      conf := max acc.conf (5/10) }
  else acc

/-- The accumulator of `PersonalInfoDetector.check` after its email, phone,
SSN and credit-card stages, in source order. -/
def pii_acc4_of (m : PIIMatches) : PIIAcc :=
  let acc0 : PIIAcc := { detected := [], types := [], conf := 0 }
  let acc1 :=
    if m.emails = [] then acc0
    else { detected := m.emails, types := ["email"], conf := max 0 (9/10) }
  let acc2 := m.phones.foldl pii_phone_step acc1
  let acc3 :=
    if m.ssns = [] then acc2
    else { detected := acc2.detected ++ m.ssns, types := acc2.types ++ ["ssn"],
           conf := max acc2.conf (95/100) }
  if m.credit_cards = [] then acc3
  else { detected := acc3.detected ++ m.credit_cards,
         types := acc3.types ++ ["credit_card"], conf := max acc3.conf (9/10) }

/-- PersonalInfoDetector.check, parameterized by the regex-engine results. -/
def personal_info_check (m : PIIMatches) (content : String) :
    PersonalInfoCheckResult :=
  let acc5 := m.addresses.foldl pii_address_step (pii_acc4_of m)
  let acc6 := m.names.foldl pii_name_step acc5
  let acc7 := personal_keywords.foldl (pii_keyword_step content.toLower) acc6
  { has_personal_info := acc7.detected.length > 0
    confidence := acc7.conf
    detected_info := acc7.detected.dedup
    info_types := acc7.types.dedup }

-- ---------------------------------------------------------------------------
-- RuleEngine (src/services/rule_engine.ts)
-- ---------------------------------------------------------------------------

/-- Result type of the external JS regex engine for one rule pattern:
`new RegExp(body, 'gi')` followed by `content.match(regex)`.  `.error ()` is a
compile failure of the pattern body; `.ok []` is a `null` match result;
`.ok ms` with `ms` nonempty is the match list. -/
abbrev RegexEval := String → String → Except Unit (List String)

/-- The body of a regex-delimited pattern: `pattern.slice(1, -1)`. -/
def regex_body (p : String) : String :=
  String.mk (p.data.drop 1).dropLast

/-- The flag (if any) one pattern of one rule produces on a content, following
`check_single_rule`: a `/…/`-delimited pattern is compiled and matched through
the external engine — a compile failure is skipped (no flag) — and any other
pattern is tested by case-insensitive substring containment. -/
def pattern_flag (rx : RegexEval) (rule : ModerationRule) (content : String)
    (pattern : String) : Option ModerationFlag :=
  let mk_flag : String → ModerationFlag := fun matched_text =>
    { type := "custom_rule_" ++ rule.id
      severity := rule.severity
      confidence := 8/10
      description := rule.description
      flagged_text := some matched_text
      suggestion := some ("Content matches rule: " ++ rule.name) }
  if pattern.startsWith "/" ∧ pattern.endsWith "/" then
    match rx (regex_body pattern) content with
    | .error _ => none
    | .ok [] => none
    | .ok ms => some (mk_flag (String.intercalate ", " ms))
  else
    if contains_sub content.toLower pattern.toLower then some (mk_flag pattern)
    else none

/-- RuleEngine.check_single_rule. -/
def check_single_rule (rx : RegexEval) (request : ContentModerationRequest)
    (rule : ModerationRule) : List ModerationFlag :=
  rule.patterns.filterMap (pattern_flag rx rule request.content)

/-- RuleEngine.check_rules over a rule list (the engine's current rule set;
the coordinator keeps it equal to `config.rules`). -/
def check_rules (rx : RegexEval) (rules : List ModerationRule)
    (request : ContentModerationRequest) : List ModerationFlag :=
  rules.flatMap (fun rule =>
    if rule.enabled && rule.platforms.contains request.platform then
      check_single_rule rx request rule
    else [])

-- ---------------------------------------------------------------------------
-- ModerationEngine (src/services/moderation_engine.ts)
-- ---------------------------------------------------------------------------

/-- ModerationEngine.validate_request, returning the first violated condition
in source order (the source throws at the first failing check). -/
def validate_request (request : ContentModerationRequest) :
    Option ValidationError :=
  if request.content.data.all is_ws then some .EmptyContent
  else if request.content.length > 10000 then some .ContentTooLong
  else if !content_type_values.contains request.content_type then
    some .InvalidContentType
  else if !platform_values.contains request.platform then
    some .InvalidPlatform
  else none

/-- ModerationEngine.check_platform_rules. -/
def check_platform_rules (request : ContentModerationRequest) :
    List ModerationFlag :=
  if request.platform = "twitter" then
    if request.content.length > 280 then
      [{ type := "character_limit", severity := .LOW, confidence := 1
         description := MSG_CHARACTER_LIMIT
         suggestion := some "Consider shortening your post" }]
    else []
  else if request.platform = "instagram" then
    if count_char request.content '#' > 30 then
      [{ type := "hashtag_limit", severity := .LOW, confidence := 1
         description := MSG_HASHTAG_LIMIT
         suggestion := some "Reduce the number of hashtags" }]
    else []
  else if request.platform = "linkedin" then
    if count_char request.content '@' > 5 then
      [{ type := "mention_limit", severity := .LOW, confidence := 1
         description := MSG_MENTION_LIMIT
         suggestion := some "Reduce the number of mentions" }]
    else []
  else []

/-- ModerationEngine.calculate_overall_severity. -/
def calculate_overall_severity (flags : List ModerationFlag) : SeverityLevel :=
  if flags.length = 0 then .LOW
  else
    flags.foldl
      (fun mx flag =>
        if sev_score flag.severity > sev_score mx then flag.severity else mx)
      .LOW

/-- ModerationEngine.calculate_confidence_score. -/
def calculate_confidence_score (flags : List ModerationFlag) : ℚ :=
  if flags.length = 0 then 1
  else (flags.foldl (fun s flag => s + flag.confidence) 0) / (flags.length : ℚ)

/-- ModerationEngine.determine_safe_to_post (the `flags` argument is unread in
the source as well). -/
def determine_safe_to_post (_flags : List ModerationFlag)
    (overall_severity : SeverityLevel) : Bool :=
  if overall_severity = .CRITICAL ∨ overall_severity = .HIGH then false
  else true

/-- ModerationEngine.generate_recommendations. -/
def generate_recommendations (flags : List ModerationFlag) (platform : String) :
    List String :=
  if flags.length = 0 then [MSG_CONTENT_SAFE]
  else
    (if flags.any (fun f => f.severity == .CRITICAL || f.severity == .HIGH) then
      [MSG_RECOMMEND_REPLACE]
    else if flags.any (fun f => f.severity == .MEDIUM) then
      [MSG_RECOMMEND_EDIT]
    else [MSG_RECOMMEND_REVIEW]) ++
    (if platform = "twitter" then
      ["Consider using Twitter\x27s built-in content warnings for sensitive topics"]
    else if platform = "instagram" then
      ["Use Instagram\x27s content filters and moderation tools"]
    else if platform = "linkedin" then
      ["Ensure content aligns with LinkedIn\x27s professional community guidelines"]
    else [])

/-- External collaborators of the pipeline: the effective `bad-words`
blocklist, the sentiment valence lexicon, the JS regex engine used by the rule
engine, and the regex-engine results used by the personal-info detector. -/
structure ExternalDeps where
  blocklist : List String
  lexicon : List (String × ℚ)
  rule_regex : RegexEval
  pii : String → PIIMatches

/-- The flag accumulation section of `moderate_content` (lines 47-123): the
five toggled detectors in source order, then the rule engine, then the
platform checks; each detector contributes its flag exactly as pushed in the
source. -/
def pipeline_flags (ext : ExternalDeps) (config : ModerationConfig)
    (request : ContentModerationRequest) : List ModerationFlag :=
  (if config.enable_profanity_detection then
    let profanity_result := profanity_check ext.blocklist request.content
    if profanity_result.is_profane then
      [{ type := "profanity", severity := .MEDIUM, confidence := 9/10
         description := MSG_PROFANITY_DETECTED
         flagged_text := some (String.intercalate ", " profanity_result.profane_words)
         suggestion := some MSG_RECOMMEND_EDIT }]
    else []
  else []) ++
  (if config.enable_sentiment_analysis then
    let sentiment_result := sentiment_analyze ext.lexicon request.content
    if sentiment_result.comparative < -(3/10) then
      [{ type := "negative_sentiment", severity := .LOW
         confidence := |sentiment_result.comparative|
         description := MSG_NEGATIVE_SENTIMENT
         suggestion := some MSG_RECOMMEND_REVIEW }]
    else []
  else []) ++
  (if config.enable_toxicity_detection then
    let toxicity_result := toxicity_check request.content
    if toxicity_result.is_toxic then
      [{ type := "toxicity", severity := .HIGH
         confidence := toxicity_result.toxicity_score
         description := MSG_TOXICITY_DETECTED
         suggestion := some MSG_RECOMMEND_REPLACE }]
    else []
  else []) ++
  (if config.enable_spam_detection then
    let spam_result := spam_check request.content
    if spam_result.is_spam then
      [{ type := "spam", severity := .MEDIUM, confidence := spam_result.spam_score
         description := MSG_SPAM_DETECTED
         suggestion := some MSG_RECOMMEND_EDIT }]
    else []
  else []) ++
  (if config.enable_personal_info_detection then
    let personal_info_result := personal_info_check (ext.pii request.content) request.content
    if personal_info_result.has_personal_info then
      [{ type := "personal_info", severity := .HIGH
         confidence := personal_info_result.confidence
         description := MSG_PERSONAL_INFO_DETECTED
         flagged_text := some (String.intercalate ", " personal_info_result.detected_info)
         suggestion := some MSG_RECOMMEND_EDIT }]
    else []
  else []) ++
  check_rules ext.rule_regex config.rules request ++
  check_platform_rules request

/-- The response assembly of `moderate_content` (lines 125-141), minus the
unmodelled wall-clock `processing_time_ms`. -/
def mk_response (flags : List ModerationFlag) (platform : String) :
    ContentModerationResponse :=
  { is_flagged := flags.length > 0
    flags := flags
    overall_severity := calculate_overall_severity flags
    confidence_score := calculate_confidence_score flags
    safe_to_post := determine_safe_to_post flags (calculate_overall_severity flags)
    recommendations := generate_recommendations flags platform }

/-- ModerationEngine.moderate_content: validation first (a failure is thrown
before any detector runs, carrying no partial data), then the pipeline. -/
def moderate_content (ext : ExternalDeps) (config : ModerationConfig)
    (request : ContentModerationRequest) :
    Except ValidationError ContentModerationResponse :=
  match validate_request request with
  | some e => .error e
  | none => .ok (mk_response (pipeline_flags ext config request) request.platform)

deriving instance DecidableEq for Except

-- ---------------------------------------------------------------------------
-- Concrete instantiations of the external collaborators, used to run the
-- pipeline on sample inputs
-- ---------------------------------------------------------------------------

/-- Regex-engine results for contents that contain none of the personal-info
patterns (no digits, no `@`-addresses, no capitalized-name pairs); true of
every sample content below. -/
def no_pii : String → PIIMatches :=
  fun _ => { emails := [], phones := [], ssns := [], credit_cards := [],
             addresses := [], names := [] }

/-- Sample regex engine for the rule engine: the body `(` is the classic
unclosed-group compile error; any other body is evaluated as a plain
case-insensitive substring search. -/
def demo_rx : RegexEval := fun pat content =>
  if pat = "(" then .error ()
  else if contains_sub content.toLower pat.toLower then .ok [pat] else .ok []

def demo_ext : ExternalDeps :=
  { blocklist := profanity_blocklist, lexicon := sentiment_lexicon,
    rule_regex := demo_rx, pii := no_pii }

/-- Configuration with every detector toggle on and no custom rules. -/
def cfg_all : ModerationConfig :=
  { rules := [], sensitivity_threshold := 1/2,
    enable_sentiment_analysis := true, enable_profanity_detection := true,
    enable_toxicity_detection := true, enable_spam_detection := true,
    enable_hate_speech_detection := true, enable_violence_detection := true,
    enable_sexual_content_detection := true,
    enable_personal_info_detection := true }

/-- Configuration with only sentiment analysis enabled. -/
def cfg_sentiment : ModerationConfig :=
  { rules := [], sensitivity_threshold := 1/2,
    enable_sentiment_analysis := true, enable_profanity_detection := false,
    enable_toxicity_detection := false, enable_spam_detection := false,
    enable_hate_speech_detection := false, enable_violence_detection := false,
    enable_sexual_content_detection := false,
    enable_personal_info_detection := false }

/-- Configuration with only toxicity detection enabled. -/
def cfg_tox : ModerationConfig :=
  { rules := [], sensitivity_threshold := 1/2,
    enable_sentiment_analysis := false, enable_profanity_detection := false,
    enable_toxicity_detection := true, enable_spam_detection := false,
    enable_hate_speech_detection := false, enable_violence_detection := false,
    enable_sexual_content_detection := false,
    enable_personal_info_detection := false }

/-- `cfg_all` with the four pipeline-unread fields (`sensitivity_threshold`,
`enable_hate_speech_detection`, `enable_violence_detection`,
`enable_sexual_content_detection`) changed. -/
def cfg_all_variant : ModerationConfig :=
  { cfg_all with
    sensitivity_threshold := 99/100
    enable_hate_speech_detection := false
    enable_violence_detection := false
    enable_sexual_content_detection := false }

def demo_req : ContentModerationRequest :=
  { content := "you are an idiot", content_type := "text", platform := "twitter" }

/-- Response of `moderate_content demo_ext cfg_tox demo_req`: one HIGH
toxicity flag (the phrase `you are an idiot` carries confidence 0.7). -/
def demo_resp : ContentModerationResponse :=
  { is_flagged := true
    flags := [{ type := "toxicity", severity := .HIGH, confidence := 7/10,
                description := MSG_TOXICITY_DETECTED,
                suggestion := some MSG_RECOMMEND_REPLACE }]
    overall_severity := .HIGH
    confidence_score := 7/10
    safe_to_post := false
    recommendations := [MSG_RECOMMEND_REPLACE,
      "Consider using Twitter\x27s built-in content warnings for sensitive topics"] }

/-- Sample rule for the rule-engine runs: enabled on twitter, one literal
pattern, one regex pattern with an invalid body. -/
def demo_rule : ModerationRule :=
  { id := "r1", name := "No promos", description := "Promotional content",
    patterns := ["promo", "/(/"], severity := .MEDIUM, enabled := true,
    platforms := ["twitter"] }

/-- Configuration with only spam detection enabled. -/
def cfg_spam : ModerationConfig :=
  { rules := [], sensitivity_threshold := 1/2,
    enable_sentiment_analysis := false, enable_profanity_detection := false,
    enable_toxicity_detection := false, enable_spam_detection := true,
    enable_hate_speech_detection := false, enable_violence_detection := false,
    enable_sexual_content_detection := false,
    enable_personal_info_detection := false }

def spam_req : ContentModerationRequest :=
  { content := "free money act now click here", content_type := "text",
    platform := "facebook" }

/-- Response of `moderate_content demo_ext cfg_spam spam_req`: the spam
phrases sum to 2.2, the `free\s+[a-z]+` suspicious pattern adds 0.6, and the
clip at 1.0 gives a MEDIUM spam flag with confidence 1. -/
def spam_resp : ContentModerationResponse :=
  { is_flagged := true
    flags := [{ type := "spam", severity := .MEDIUM, confidence := 1,
                description := MSG_SPAM_DETECTED,
                suggestion := some MSG_RECOMMEND_EDIT }]
    overall_severity := .MEDIUM
    confidence_score := 1
    safe_to_post := true
    recommendations := [MSG_RECOMMEND_EDIT] }

def c1_req : ContentModerationRequest :=
  { content := "bad", content_type := "text", platform := "facebook" }

/-- Response of `moderate_content demo_ext cfg_sentiment c1_req`: the single
token `bad` has valence -3, so `comparative = -3` and the flag's confidence is
`|-3| = 3`, outside [0, 1]. -/
def c1_resp : ContentModerationResponse :=
  { is_flagged := true
    flags := [{ type := "negative_sentiment", severity := .LOW, confidence := 3,
                description := MSG_NEGATIVE_SENTIMENT,
                suggestion := some MSG_RECOMMEND_REVIEW }]
    overall_severity := .LOW
    confidence_score := 3
    safe_to_post := true
    recommendations := [MSG_RECOMMEND_REVIEW] }

-- ---------------------------------------------------------------------------
-- Helper lemmas
-- ---------------------------------------------------------------------------

/-- A predicate preserved by every step of a fold is preserved by the fold. -/
theorem foldl_preserve {α β : Type} (f : β → α → β) (P : β → Prop)
    (h : ∀ b a, P b → P (f b a)) :
    ∀ (l : List α) (b : β), P b → P (l.foldl f b) := by
  intro l
  induction l with
  | nil => intro b hb; exact hb
  | cons a l ih => intro b hb; exact ih _ (h b a hb)

/-- Fold preservation where the step property is only needed on list members. -/
theorem foldl_preserve_mem {α β : Type} (f : β → α → β) (P : β → Prop) :
    ∀ (l : List α), (∀ b, ∀ a ∈ l, P b → P (f b a)) →
      ∀ b, P b → P (l.foldl f b) := by
  intro l
  induction l with
  | nil => intro _ b hb; exact hb
  | cons a l ih =>
    intro h b hb
    exact ih (fun b' a' ha' hb' => h b' a' (List.mem_cons_of_mem _ ha') hb') _
      (h b a (List.mem_cons_self _ _) hb)

/-- Length of a `filterMap` counts the inputs mapped to `some`. -/
theorem length_filterMap_eq_countP {α β : Type} (f : α → Option β) (l : List α) :
    (l.filterMap f).length = l.countP (fun a => (f a).isSome) := by
  induction l with
  | nil => rfl
  | cons a l ih =>
    rw [List.filterMap_cons, List.countP_cons]
    cases hf : f a <;> simp [hf, ih]

/-- Membership in a conditional list forces the condition. -/
theorem mem_ite_nil {α : Type} {c : Prop} [Decidable c] {l : List α} {x : α}
    (h : x ∈ (if c then l else [])) : c ∧ x ∈ l := by
  split at h
  · exact ⟨‹c›, h⟩
  · cases h

/-- A successful `moderate_content` returns exactly the assembled response of
the accumulated pipeline flags. -/
theorem moderate_ok_resp (ext : ExternalDeps) (config : ModerationConfig)
    (request : ContentModerationRequest) (resp : ContentModerationResponse)
    (h : moderate_content ext config request = .ok resp) :
    resp = mk_response (pipeline_flags ext config request) request.platform := by
  unfold moderate_content at h
  split at h
  · simp at h
  · injection h with h
    exact h.symm

/-- One step of the `calculate_overall_severity` reduction never decreases
the running maximum. -/
theorem sev_step_ge (m : SeverityLevel) (f : ModerationFlag) :
    sev_score m ≤
      sev_score (if sev_score f.severity > sev_score m then f.severity else m) := by
  split
  · exact Nat.le_of_lt ‹_›
  · exact Nat.le_refl _

/-- The `calculate_overall_severity` fold never goes below its start value. -/
theorem sev_foldl_ge (l : List ModerationFlag) (m : SeverityLevel) :
    sev_score m ≤
      sev_score (l.foldl
        (fun mx flag =>
          if sev_score flag.severity > sev_score mx then flag.severity else mx) m) := by
  induction l generalizing m with
  | nil => exact Nat.le_refl _
  | cons f l ih => exact Nat.le_trans (sev_step_ge m f) (ih _)

/-- The `calculate_overall_severity` fold dominates every member severity. -/
theorem sev_foldl_mem (l : List ModerationFlag) (m : SeverityLevel)
    (f : ModerationFlag) (hf : f ∈ l) :
    sev_score f.severity ≤
      sev_score (l.foldl
        (fun mx flag =>
          if sev_score flag.severity > sev_score mx then flag.severity else mx) m) := by
  induction l generalizing m with
  | nil => cases hf
  | cons g l ih =>
    rcases List.mem_cons.mp hf with hfg | hf
    · subst hfg
      refine Nat.le_trans ?_ (sev_foldl_ge l _)
      dsimp only
      split
      · exact Nat.le_refl _
      · exact Nat.le_of_not_lt ‹_›
    · exact ih _ hf

/-- The `calculate_overall_severity` fold returns its start value or the
severity of some member. -/
theorem sev_foldl_attained (l : List ModerationFlag) (m : SeverityLevel) :
    (l.foldl
      (fun mx flag =>
        if sev_score flag.severity > sev_score mx then flag.severity else mx) m) = m ∨
    ∃ f ∈ l,
      (l.foldl
        (fun mx flag =>
          if sev_score flag.severity > sev_score mx then flag.severity else mx) m) =
        f.severity := by
  induction l generalizing m with
  | nil => left; rfl
  | cons g l ih =>
    rw [List.foldl_cons]
    rcases ih (if sev_score g.severity > sev_score m then g.severity else m) with
      h | ⟨f, hf, heq⟩
    · rw [h]
      split
      · exact Or.inr ⟨g, List.mem_cons_self _ _, rfl⟩
      · exact Or.inl rfl
    · exact Or.inr ⟨f, List.mem_cons_of_mem _ hf, heq⟩

-- ---------------------------------------------------------------------------
-- C2: overall_severity is the maximum flag severity, LOW when there are none
-- ---------------------------------------------------------------------------

/-- C2.  For every accepted request, the response's `overall_severity` is the
maximum severity among its flags under the order LOW < MEDIUM < HIGH <
CRITICAL (it dominates every flag's severity and is attained by some flag),
and equals LOW when the flag list is empty. -/
theorem overall_severity_is_max (ext : ExternalDeps) (config : ModerationConfig)
    (request : ContentModerationRequest) (resp : ContentModerationResponse)
    (h : moderate_content ext config request = .ok resp) :
    (∀ f ∈ resp.flags, sev_score f.severity ≤ sev_score resp.overall_severity) ∧
    (resp.flags = [] → resp.overall_severity = .LOW) ∧
    (resp.flags ≠ [] → ∃ f ∈ resp.flags, f.severity = resp.overall_severity) := by
  rw [moderate_ok_resp ext config request resp h]
  refine ⟨?_, ?_, ?_⟩
  · intro f hf
    simp only [mk_response] at hf ⊢
    unfold calculate_overall_severity
    split
    · next hlen =>
      rw [List.length_eq_zero.mp hlen] at hf
      cases hf
    · exact sev_foldl_mem _ _ _ hf
  · intro he
    simp only [mk_response] at he ⊢
    unfold calculate_overall_severity
    rw [he]
    rfl
  · intro hne
    simp only [mk_response] at hne ⊢
    unfold calculate_overall_severity
    split
    · next hlen => exact absurd (List.length_eq_zero.mp hlen) hne
    · rcases sev_foldl_attained (pipeline_flags ext config request) .LOW with
        h0 | ⟨f, hf, heq⟩
      · obtain ⟨f, hf⟩ : ∃ f, f ∈ pipeline_flags ext config request :=
          List.exists_mem_of_ne_nil _ hne
        refine ⟨f, hf, ?_⟩
        have h1 := sev_foldl_mem (pipeline_flags ext config request) .LOW f hf
        rw [h0] at h1
        rw [h0]
        cases hsev : f.severity <;> rw [hsev] at h1 <;>
          simp [sev_score] at h1 ⊢
      · exact ⟨f, hf, heq.symm⟩

/-- Witness for C2 on a concrete run (one HIGH toxicity flag). -/
theorem overall_severity_is_max_witness :
    (∀ f ∈ demo_resp.flags, sev_score f.severity ≤ sev_score demo_resp.overall_severity) ∧
    (demo_resp.flags = [] → demo_resp.overall_severity = .LOW) ∧
    (demo_resp.flags ≠ [] → ∃ f ∈ demo_resp.flags, f.severity = demo_resp.overall_severity) :=
  overall_severity_is_max demo_ext cfg_tox demo_req demo_resp
    (by with_unfolding_all rfl)

-- ---------------------------------------------------------------------------
-- C3: safe_to_post is false exactly on HIGH/CRITICAL overall severity
-- ---------------------------------------------------------------------------

/-- C3.  For every accepted request, `safe_to_post` is false iff the
response's `overall_severity` is HIGH or CRITICAL. -/
theorem safe_to_post_iff_severe (ext : ExternalDeps) (config : ModerationConfig)
    (request : ContentModerationRequest) (resp : ContentModerationResponse)
    (h : moderate_content ext config request = .ok resp) :
    resp.safe_to_post = false ↔
      (resp.overall_severity = .HIGH ∨ resp.overall_severity = .CRITICAL) := by
  rw [moderate_ok_resp ext config request resp h]
  simp only [mk_response, determine_safe_to_post]
  split
  · simp only [eq_self_iff_true, true_iff]
    tauto
  · simp only [Bool.true_eq_false, false_iff]
    tauto

/-- Witness for C3 on a concrete run (HIGH severity, not safe to post). -/
theorem safe_to_post_iff_severe_witness :
    demo_resp.safe_to_post = false ↔
      (demo_resp.overall_severity = .HIGH ∨ demo_resp.overall_severity = .CRITICAL) :=
  safe_to_post_iff_severe demo_ext cfg_tox demo_req demo_resp
    (by with_unfolding_all rfl)

-- ---------------------------------------------------------------------------
-- C4: validation rejects exactly the four conditions, in order, before any
-- detector runs, and nothing else can fail
-- ---------------------------------------------------------------------------

/-- C4.  `moderate_content` raises an error iff the content is empty or
whitespace-only, or longer than 10000 characters, or the content type or
platform is outside its enum; the four checks run in that fixed order, the
first violated one determines the error (the failure is raised before any
detector runs, so it carries no partial results), and every request passing
all four checks produces a response — no later component can fail. -/
theorem validation_characterization (ext : ExternalDeps)
    (config : ModerationConfig) (request : ContentModerationRequest) :
    ((∃ e, moderate_content ext config request = .error e) ↔
      (request.content.data.all is_ws = true ∨
       request.content.length > 10000 ∨
       content_type_values.contains request.content_type = false ∨
       platform_values.contains request.platform = false)) ∧
    (request.content.data.all is_ws = true →
      moderate_content ext config request = .error .EmptyContent) ∧
    (request.content.data.all is_ws = false → request.content.length > 10000 →
      moderate_content ext config request = .error .ContentTooLong) ∧
    (request.content.data.all is_ws = false →
      ¬request.content.length > 10000 →
      content_type_values.contains request.content_type = false →
      moderate_content ext config request = .error .InvalidContentType) ∧
    (request.content.data.all is_ws = false →
      ¬request.content.length > 10000 →
      content_type_values.contains request.content_type = true →
      platform_values.contains request.platform = false →
      moderate_content ext config request = .error .InvalidPlatform) ∧
    (request.content.data.all is_ws = false →
      ¬request.content.length > 10000 →
      content_type_values.contains request.content_type = true →
      platform_values.contains request.platform = true →
      ∃ resp, moderate_content ext config request = .ok resp) := by
  unfold moderate_content validate_request
  by_cases h1 : request.content.data.all is_ws <;>
    by_cases h2 : request.content.length > 10000 <;>
    by_cases h3 : request.content_type ∈ content_type_values <;>
    by_cases h4 : request.platform ∈ platform_values <;>
    simp [h1, h2, h3, h4]

/-- Witness for C4: a whitespace-only request is rejected with EmptyContent,
and a fully valid request produces a response. -/
theorem validation_characterization_witness :
    moderate_content demo_ext cfg_all
      { content := "   ", content_type := "text", platform := "twitter" } =
        .error .EmptyContent ∧
    (∃ resp, moderate_content demo_ext cfg_tox demo_req = .ok resp) := by
  constructor
  · exact (validation_characterization demo_ext cfg_all
      { content := "   ", content_type := "text", platform := "twitter" }).2.1
      (by with_unfolding_all rfl)
  · exact (validation_characterization demo_ext cfg_tox demo_req).2.2.2.2.2
      (by with_unfolding_all rfl) (by decide) (by with_unfolding_all rfl)
      (by with_unfolding_all rfl)

-- ---------------------------------------------------------------------------
-- C7: the platform policy check
-- ---------------------------------------------------------------------------

/-- C7.  The platform policy check is a function of (content, platform) only;
TWITTER produces exactly one LOW `character_limit` flag (confidence 1) iff the
content length exceeds 280; INSTAGRAM one LOW `hashtag_limit` flag iff the
`#` count exceeds 30; LINKEDIN one LOW `mention_limit` flag iff the `@` count
exceeds 5; every other platform produces no flags. -/
theorem platform_rules_characterization (request : ContentModerationRequest) :
    (check_platform_rules request = check_platform_rules
      { content := request.content, content_type := "text",
        platform := request.platform }) ∧
    (request.platform = "twitter" →
      check_platform_rules request =
        if request.content.length > 280 then
          [{ type := "character_limit", severity := .LOW, confidence := 1,
             description := MSG_CHARACTER_LIMIT,
             suggestion := some "Consider shortening your post" }]
        else []) ∧
    (request.platform = "instagram" →
      check_platform_rules request =
        if count_char request.content '#' > 30 then
          [{ type := "hashtag_limit", severity := .LOW, confidence := 1,
             description := MSG_HASHTAG_LIMIT,
             suggestion := some "Reduce the number of hashtags" }]
        else []) ∧
    (request.platform = "linkedin" →
      check_platform_rules request =
        if count_char request.content '@' > 5 then
          [{ type := "mention_limit", severity := .LOW, confidence := 1,
             description := MSG_MENTION_LIMIT,
             suggestion := some "Reduce the number of mentions" }]
        else []) ∧
    (request.platform ≠ "twitter" → request.platform ≠ "instagram" →
      request.platform ≠ "linkedin" → check_platform_rules request = []) := by
  refine ⟨rfl, ?_, ?_, ?_, ?_⟩
  · intro hp
    unfold check_platform_rules
    rw [hp]
    simp
  · intro hp
    unfold check_platform_rules
    rw [hp]
    simp
  · intro hp
    unfold check_platform_rules
    rw [hp]
    simp
  · intro h1 h2 h3
    unfold check_platform_rules
    simp [h1, h2, h3]

/-- Witness for C7: a twitter request over the character limit gets the
`character_limit` flag. -/
theorem platform_rules_characterization_witness :
    check_platform_rules
      { content := String.mk (List.replicate 281 'a'), content_type := "text",
        platform := "twitter" } =
      if (String.mk (List.replicate 281 'a')).length > 280 then
        [{ type := "character_limit", severity := .LOW, confidence := 1,
           description := MSG_CHARACTER_LIMIT,
           suggestion := some "Consider shortening your post" }]
      else [] :=
  (platform_rules_characterization
    { content := String.mk (List.replicate 281 'a'), content_type := "text",
      platform := "twitter" }).2.1 rfl

-- ---------------------------------------------------------------------------
-- C8: the recommendations list
-- ---------------------------------------------------------------------------

/-- C8.  For every accepted request the recommendations list is exactly one
severity-tier message — the replace message if some flag is HIGH or CRITICAL,
else the edit message if some flag is MEDIUM, else the review message if any
flag exists, else the content-safe message — followed by at most one fixed
platform tip; the tip appears only for twitter, instagram or linkedin (and,
as the source returns early on an empty flag list, only when some flag
exists). -/
theorem recommendations_characterization (ext : ExternalDeps)
    (config : ModerationConfig) (request : ContentModerationRequest)
    (resp : ContentModerationResponse)
    (h : moderate_content ext config request = .ok resp) :
    ∃ tips : List String,
      resp.recommendations =
        (if resp.flags = [] then MSG_CONTENT_SAFE
         else if resp.flags.any
            (fun f => f.severity == SeverityLevel.CRITICAL ||
              f.severity == SeverityLevel.HIGH) then MSG_RECOMMEND_REPLACE
         else if resp.flags.any (fun f => f.severity == SeverityLevel.MEDIUM) then
           MSG_RECOMMEND_EDIT
         else MSG_RECOMMEND_REVIEW) :: tips ∧
      tips.length ≤ 1 ∧
      (request.platform ≠ "twitter" → request.platform ≠ "instagram" →
        request.platform ≠ "linkedin" → tips = []) ∧
      (resp.flags = [] → tips = []) ∧
      (resp.flags ≠ [] → request.platform = "twitter" →
        tips = ["Consider using Twitter\x27s built-in content warnings for sensitive topics"]) ∧
      (resp.flags ≠ [] → request.platform = "instagram" →
        tips = ["Use Instagram\x27s content filters and moderation tools"]) ∧
      (resp.flags ≠ [] → request.platform = "linkedin" →
        tips = ["Ensure content aligns with LinkedIn\x27s professional community guidelines"]) := by
  rw [moderate_ok_resp ext config request resp h]
  simp only [mk_response]
  unfold generate_recommendations
  split
  · next hlen =>
    have hfl : pipeline_flags ext config request = [] := List.length_eq_zero.mp hlen
    refine ⟨[], by simp [hfl], by simp, fun _ _ _ => rfl, fun _ => rfl,
      fun hne _ => absurd hfl hne, fun hne _ => absurd hfl hne,
      fun hne _ => absurd hfl hne⟩
  · next hlen =>
    have hfl : pipeline_flags ext config request ≠ [] := by
      intro hc
      exact hlen (by rw [hc]; rfl)
    refine ⟨(if request.platform = "twitter" then
        ["Consider using Twitter\x27s built-in content warnings for sensitive topics"]
      else if request.platform = "instagram" then
        ["Use Instagram\x27s content filters and moderation tools"]
      else if request.platform = "linkedin" then
        ["Ensure content aligns with LinkedIn\x27s professional community guidelines"]
      else []), ?_, ?_, ?_, ?_, ?_, ?_, ?_⟩
    · rw [if_neg hfl]
      by_cases hc1 : (pipeline_flags ext config request).any
          (fun f => f.severity == SeverityLevel.CRITICAL ||
            f.severity == SeverityLevel.HIGH) <;>
        by_cases hc2 : (pipeline_flags ext config request).any
          (fun f => f.severity == SeverityLevel.MEDIUM) <;>
        simp [hc1, hc2]
    · split
      · simp
      · split
        · simp
        · split <;> simp
    · intro h1 h2 h3
      simp [h1, h2, h3]
    · intro hc
      exact absurd hc hfl
    · intro _ hp
      simp [hp]
    · intro _ hp
      simp [hp]
    · intro _ hp
      simp [hp]

/-- Witness for C8 on a concrete run (twitter platform, one HIGH flag: the
replace message followed by the twitter tip). -/
theorem recommendations_characterization_witness :
    ∃ tips : List String,
      demo_resp.recommendations =
        (if demo_resp.flags = [] then MSG_CONTENT_SAFE
         else if demo_resp.flags.any
            (fun f => f.severity == SeverityLevel.CRITICAL ||
              f.severity == SeverityLevel.HIGH) then MSG_RECOMMEND_REPLACE
         else if demo_resp.flags.any (fun f => f.severity == SeverityLevel.MEDIUM) then
           MSG_RECOMMEND_EDIT
         else MSG_RECOMMEND_REVIEW) :: tips ∧
      tips.length ≤ 1 ∧
      (demo_req.platform ≠ "twitter" → demo_req.platform ≠ "instagram" →
        demo_req.platform ≠ "linkedin" → tips = []) ∧
      (demo_resp.flags = [] → tips = []) ∧
      (demo_resp.flags ≠ [] → demo_req.platform = "twitter" →
        tips = ["Consider using Twitter\x27s built-in content warnings for sensitive topics"]) ∧
      (demo_resp.flags ≠ [] → demo_req.platform = "instagram" →
        tips = ["Use Instagram\x27s content filters and moderation tools"]) ∧
      (demo_resp.flags ≠ [] → demo_req.platform = "linkedin" →
        tips = ["Ensure content aligns with LinkedIn\x27s professional community guidelines"]) :=
  recommendations_characterization demo_ext cfg_tox demo_req demo_resp
    (by with_unfolding_all rfl)

-- ---------------------------------------------------------------------------
-- C9: profane_words versus is_profane
-- ---------------------------------------------------------------------------

/-- C9.  For every blocklist and content, `profane_words` is a subset of the
small canonical `common_profane` set, each listed word occurring
case-insensitively in the original content, and it is empty whenever
`is_profane` is false; with the (spec-modelled) effective blocklist, the input
`cunt` is reported profane with an empty `profane_words` list. -/
theorem profanity_check_characterization :
    (∀ (blocklist : List String) (content : String),
      (∀ w ∈ (profanity_check blocklist content).profane_words,
        w ∈ common_profane ∧ contains_sub content.toLower w = true) ∧
      ((profanity_check blocklist content).is_profane = false →
        (profanity_check blocklist content).profane_words = [])) ∧
    ((profanity_check profanity_blocklist "cunt").is_profane = true ∧
      (profanity_check profanity_blocklist "cunt").profane_words = []) := by
  constructor
  · intro blocklist content
    constructor
    · intro w hw
      unfold profanity_check at hw
      simp only at hw
      split at hw
      · rcases List.mem_filter.mp hw with ⟨hmem, hsub⟩
        exact ⟨hmem, hsub⟩
      · cases hw
    · intro hnp
      unfold profanity_check at hnp ⊢
      simp only at hnp ⊢
      split
      · next hip =>
        rw [hip] at hnp
        cases hnp
      · rfl
  · constructor
    · with_unfolding_all rfl
    · with_unfolding_all rfl

/-- Witness for C9's conditional part: a clean input is not profane and gets
an empty word list through the theorem. -/
theorem profanity_check_characterization_witness :
    (profanity_check profanity_blocklist "hello world").profane_words = [] :=
  (profanity_check_characterization.1 profanity_blocklist "hello world").2
    (by with_unfolding_all rfl)

-- ---------------------------------------------------------------------------
-- C10: the response ignores sensitivity_threshold and the three unread toggles
-- ---------------------------------------------------------------------------

/-- C10.  The response depends on the configuration only through its rules
and the five consulted toggles: two configurations agreeing on those six
fields produce identical results on every request, whatever their
`sensitivity_threshold`, `enable_hate_speech_detection`,
`enable_violence_detection` and `enable_sexual_content_detection` — none of
those four fields is read by the pipeline. -/
theorem config_unused_fields_independence (ext : ExternalDeps)
    (request : ContentModerationRequest) (c1 c2 : ModerationConfig)
    (hrules : c1.rules = c2.rules)
    (hprof : c1.enable_profanity_detection = c2.enable_profanity_detection)
    (hsent : c1.enable_sentiment_analysis = c2.enable_sentiment_analysis)
    (htox : c1.enable_toxicity_detection = c2.enable_toxicity_detection)
    (hspam : c1.enable_spam_detection = c2.enable_spam_detection)
    (hpii : c1.enable_personal_info_detection = c2.enable_personal_info_detection) :
    moderate_content ext c1 request = moderate_content ext c2 request := by
  unfold moderate_content
  have hpf : pipeline_flags ext c1 request = pipeline_flags ext c2 request := by
    unfold pipeline_flags check_rules
    rw [hrules, hprof, hsent, htox, hspam, hpii]
  rw [hpf]

/-- Witness for C10: `cfg_all` and `cfg_all_variant` differ exactly in the
four unread fields and give the same result. -/
theorem config_unused_fields_independence_witness :
    moderate_content demo_ext cfg_all demo_req =
      moderate_content demo_ext cfg_all_variant demo_req :=
  config_unused_fields_independence demo_ext demo_req cfg_all cfg_all_variant
    rfl rfl rfl rfl rfl rfl

-- ---------------------------------------------------------------------------
-- C6: the rule engine
-- ---------------------------------------------------------------------------

/-- C6.  Rule-engine flags come only from enabled rules whose platform set
contains the request's platform; each matching pattern of such a rule yields
exactly one flag typed `custom_rule_<id>` with the rule's severity and fixed
confidence 0.8; a regex-delimited pattern whose body fails to compile yields
no flag and is skipped non-fatally, evaluation of the remaining patterns and
rules continuing unchanged. -/
theorem rule_engine_characterization (rx : RegexEval)
    (rules : List ModerationRule) (request : ContentModerationRequest) :
    (∀ f ∈ check_rules rx rules request,
      ∃ rule, rule ∈ rules ∧ rule.enabled = true ∧
        rule.platforms.contains request.platform = true ∧
        f.type = "custom_rule_" ++ rule.id ∧ f.severity = rule.severity ∧
        f.confidence = 8/10) ∧
    (∀ rule : ModerationRule,
      (check_single_rule rx request rule).length =
        rule.patterns.countP
          (fun p => (pattern_flag rx rule request.content p).isSome)) ∧
    (∀ (rule : ModerationRule) (p : String),
      p.startsWith "/" = true → p.endsWith "/" = true →
      rx (regex_body p) request.content = .error () →
      pattern_flag rx rule request.content p = none) ∧
    (∀ (rule : ModerationRule) (l1 l2 : List String) (p : String),
      pattern_flag rx rule request.content p = none →
      check_single_rule rx request { rule with patterns := l1 ++ p :: l2 } =
        check_single_rule rx request { rule with patterns := l1 ++ l2 }) ∧
    (∀ rules1 rules2 : List ModerationRule,
      check_rules rx (rules1 ++ rules2) request =
        check_rules rx rules1 request ++ check_rules rx rules2 request) := by
  refine ⟨?_, ?_, ?_, ?_, ?_⟩
  · intro f hf
    unfold check_rules at hf
    rcases List.mem_flatMap.mp hf with ⟨rule, hrule, hfr⟩
    split at hfr
    · next hguard =>
      rcases Bool.and_eq_true_iff.mp hguard with ⟨hen, hpl⟩
      refine ⟨rule, hrule, hen, hpl, ?_⟩
      rcases List.mem_filterMap.mp hfr with ⟨p, _, hpat⟩
      unfold pattern_flag at hpat
      split at hpat
      · split at hpat
        · cases hpat
        · cases hpat
        · injection hpat with hpat
          rw [← hpat]
          exact ⟨rfl, rfl, rfl⟩
      · split at hpat
        · injection hpat with hpat
          rw [← hpat]
          exact ⟨rfl, rfl, rfl⟩
        · cases hpat
    · cases hfr
  · intro rule
    exact length_filterMap_eq_countP _ _
  · intro rule p hs he herr
    unfold pattern_flag
    rw [if_pos ⟨hs, he⟩, herr]
  · intro rule l1 l2 p hnone
    unfold check_single_rule
    have hpf : ∀ ps : List String,
        pattern_flag rx { rule with patterns := ps } request.content =
          pattern_flag rx rule request.content := fun _ => rfl
    simp only [List.filterMap_append, List.filterMap_cons, hpf, hnone]
  · intro rules1 rules2
    unfold check_rules
    exact List.flatMap_append ..

/-- Witness for C6: a rule with one matching literal pattern and one
non-compiling regex pattern produces exactly one flag, and the bad pattern is
skipped without affecting the rest. -/
theorem rule_engine_characterization_witness :
    pattern_flag demo_rx demo_rule "this promo is great" "/(/" = none ∧
    (check_single_rule demo_rx
      { content := "this promo is great", content_type := "text",
        platform := "twitter" } demo_rule).length =
      demo_rule.patterns.countP
        (fun p => (pattern_flag demo_rx demo_rule "this promo is great" p).isSome) := by
  constructor
  · exact (rule_engine_characterization demo_rx [demo_rule]
      { content := "this promo is great", content_type := "text",
        platform := "twitter" }).2.2.1 demo_rule "/(/"
      (by with_unfolding_all rfl) (by with_unfolding_all rfl)
      (by with_unfolding_all rfl)
  · exact (rule_engine_characterization demo_rx [demo_rule]
      { content := "this promo is great", content_type := "text",
        platform := "twitter" }).2.1 demo_rule

-- ---------------------------------------------------------------------------
-- Helper lemmas for flag membership and confidence bounds
-- ---------------------------------------------------------------------------

/-- A `custom_rule_<id>` type never coincides with a type name shorter than
the prefix. -/
theorem custom_rule_type_ne (id s : String) (hs : s.length < 12) :
    ("custom_rule_" ++ id : String) ≠ s := by
  intro h
  have hl := congrArg String.length h
  rw [String.length_append] at hl
  have h12 : "custom_rule_".length = 12 := by decide
  omega

/-- Every rule-engine flag comes from an enabled, platform-matching rule and
carries the `custom_rule_` type, the rule's severity and confidence 0.8. -/
theorem check_rules_mem_shape (rx : RegexEval) (rules : List ModerationRule)
    (request : ContentModerationRequest) (f : ModerationFlag)
    (hf : f ∈ check_rules rx rules request) :
    ∃ rule, rule ∈ rules ∧ rule.enabled = true ∧
      rule.platforms.contains request.platform = true ∧
      f.type = "custom_rule_" ++ rule.id ∧ f.severity = rule.severity ∧
      f.confidence = 8/10 := by
  unfold check_rules at hf
  rcases List.mem_flatMap.mp hf with ⟨rule, hrule, hfr⟩
  split at hfr
  · next hguard =>
    rcases Bool.and_eq_true_iff.mp hguard with ⟨hen, hpl⟩
    refine ⟨rule, hrule, hen, hpl, ?_⟩
    rcases List.mem_filterMap.mp hfr with ⟨p, _, hpat⟩
    unfold pattern_flag at hpat
    split at hpat
    · split at hpat
      · cases hpat
      · cases hpat
      · injection hpat with hpat
        rw [← hpat]
        exact ⟨rfl, rfl, rfl⟩
    · split at hpat
      · injection hpat with hpat
        rw [← hpat]
        exact ⟨rfl, rfl, rfl⟩
      · cases hpat
  · cases hfr

/-- Every platform-policy flag is LOW with confidence 1 and one of the three
limit types. -/
theorem check_platform_rules_mem_shape (request : ContentModerationRequest)
    (f : ModerationFlag) (hf : f ∈ check_platform_rules request) :
    f.severity = .LOW ∧ f.confidence = 1 ∧
      (f.type = "character_limit" ∨ f.type = "hashtag_limit" ∨
        f.type = "mention_limit") := by
  unfold check_platform_rules at hf
  split at hf
  · split at hf
    · rw [List.mem_singleton.mp hf]
      exact ⟨rfl, rfl, Or.inl rfl⟩
    · cases hf
  · split at hf
    · split at hf
      · rw [List.mem_singleton.mp hf]
        exact ⟨rfl, rfl, Or.inr (Or.inl rfl)⟩
      · cases hf
    · split at hf
      · split at hf
        · rw [List.mem_singleton.mp hf]
          exact ⟨rfl, rfl, Or.inr (Or.inr rfl)⟩
        · cases hf
      · cases hf

/-- Case analysis on membership in the accumulated pipeline flags: a flag is
one of the five detector flags (with its toggle on and its trigger true), a
rule-engine flag, or a platform-policy flag. -/
theorem pipeline_flags_mem (ext : ExternalDeps) (config : ModerationConfig)
    (request : ContentModerationRequest) (f : ModerationFlag)
    (hf : f ∈ pipeline_flags ext config request) :
    (config.enable_profanity_detection = true ∧
      (profanity_check ext.blocklist request.content).is_profane = true ∧
      f = { type := "profanity", severity := .MEDIUM, confidence := 9/10,
            description := MSG_PROFANITY_DETECTED,
            flagged_text := some (String.intercalate ", "
              (profanity_check ext.blocklist request.content).profane_words),
            suggestion := some MSG_RECOMMEND_EDIT }) ∨
    (config.enable_sentiment_analysis = true ∧
      (sentiment_analyze ext.lexicon request.content).comparative < -(3/10) ∧
      f = { type := "negative_sentiment", severity := .LOW,
            confidence := |(sentiment_analyze ext.lexicon request.content).comparative|,
            description := MSG_NEGATIVE_SENTIMENT,
            suggestion := some MSG_RECOMMEND_REVIEW }) ∨
    (config.enable_toxicity_detection = true ∧
      (toxicity_check request.content).is_toxic = true ∧
      f = { type := "toxicity", severity := .HIGH,
            confidence := (toxicity_check request.content).toxicity_score,
            description := MSG_TOXICITY_DETECTED,
            suggestion := some MSG_RECOMMEND_REPLACE }) ∨
    (config.enable_spam_detection = true ∧
      (spam_check request.content).is_spam = true ∧
      f = { type := "spam", severity := .MEDIUM,
            confidence := (spam_check request.content).spam_score,
            description := MSG_SPAM_DETECTED,
            suggestion := some MSG_RECOMMEND_EDIT }) ∨
    (config.enable_personal_info_detection = true ∧
      (personal_info_check (ext.pii request.content) request.content).has_personal_info = true ∧
      f = { type := "personal_info", severity := .HIGH,
            confidence :=
              (personal_info_check (ext.pii request.content) request.content).confidence,
            description := MSG_PERSONAL_INFO_DETECTED,
            flagged_text := some (String.intercalate ", "
              (personal_info_check (ext.pii request.content) request.content).detected_info),
            suggestion := some MSG_RECOMMEND_EDIT }) ∨
    f ∈ check_rules ext.rule_regex config.rules request ∨
    f ∈ check_platform_rules request := by
  unfold pipeline_flags at hf
  rcases List.mem_append.mp hf with hf | h1
  swap
  · exact Or.inr (Or.inr (Or.inr (Or.inr (Or.inr (Or.inr h1)))))
  rcases List.mem_append.mp hf with hf | h1
  swap
  · exact Or.inr (Or.inr (Or.inr (Or.inr (Or.inr (Or.inl h1)))))
  rcases List.mem_append.mp hf with hf | h1
  swap
  · rcases mem_ite_nil h1 with ⟨ht, h1⟩
    rcases mem_ite_nil h1 with ⟨hc, h1⟩
    exact Or.inr (Or.inr (Or.inr (Or.inr (Or.inl ⟨ht, hc, List.mem_singleton.mp h1⟩))))
  rcases List.mem_append.mp hf with hf | h1
  swap
  · rcases mem_ite_nil h1 with ⟨ht, h1⟩
    rcases mem_ite_nil h1 with ⟨hc, h1⟩
    exact Or.inr (Or.inr (Or.inr (Or.inl ⟨ht, hc, List.mem_singleton.mp h1⟩)))
  rcases List.mem_append.mp hf with hf | h1
  swap
  · rcases mem_ite_nil h1 with ⟨ht, h1⟩
    rcases mem_ite_nil h1 with ⟨hc, h1⟩
    exact Or.inr (Or.inr (Or.inl ⟨ht, hc, List.mem_singleton.mp h1⟩))
  rcases List.mem_append.mp hf with h1 | h1
  · rcases mem_ite_nil h1 with ⟨ht, h1⟩
    rcases mem_ite_nil h1 with ⟨hc, h1⟩
    exact Or.inl ⟨ht, hc, List.mem_singleton.mp h1⟩
  · rcases mem_ite_nil h1 with ⟨ht, h1⟩
    rcases mem_ite_nil h1 with ⟨hc, h1⟩
    exact Or.inr (Or.inl ⟨ht, hc, List.mem_singleton.mp h1⟩)

/-- Unit-interval bounds pass through `max`. -/
theorem max_unit_bounds {a b : ℚ} (ha : 0 ≤ a ∧ a ≤ 1) (hb : 0 ≤ b ∧ b ≤ 1) :
    0 ≤ max a b ∧ max a b ≤ 1 :=
  ⟨le_max_of_le_left ha.1, max_le ha.2 hb.2⟩

/-- Every entry of `toxic_patterns` carries a confidence in [0, 1]. -/
theorem toxic_patterns_bounds : ∀ pc ∈ toxic_patterns, 0 ≤ pc.2 ∧ pc.2 ≤ 1 := by
  with_unfolding_all decide

/-- The toxicity score is always in [0, 1]. -/
theorem toxicity_score_bounds (content : String) :
    0 ≤ (toxicity_check content).toxicity_score ∧
      (toxicity_check content).toxicity_score ≤ 1 := by
  unfold toxicity_check
  simp only
  have hP0 : (0 : ℚ) ≤ 0 ∧ (0 : ℚ) ≤ 1 := ⟨le_refl 0, by norm_num⟩
  have hg0 := foldl_preserve_mem
    (fun m pc => if contains_sub content.toLower pc.1 then max m pc.2 else m)
    (fun x => 0 ≤ x ∧ x ≤ 1) toxic_patterns
    (fun b pc hpc hb => by
      dsimp only
      split
      · exact max_unit_bounds hb (toxic_patterns_bounds pc hpc)
      · exact hb)
    0 hP0
  have hhate := foldl_preserve
    (fun m test => if test content then max m (8/10) else m)
    (fun x => 0 ≤ x ∧ x ≤ 1)
    (fun b test hb => by
      dsimp only
      split
      · exact max_unit_bounds hb ⟨by norm_num, by norm_num⟩
      · exact hb)
    hate_speech_tests 0 hP0
  have hviol := foldl_preserve
    (fun m p => if contains_sub content.toLower p then max m (9/10) else m)
    (fun x => 0 ≤ x ∧ x ≤ 1)
    (fun b p hb => by
      dsimp only
      split
      · exact max_unit_bounds hb ⟨by norm_num, by norm_num⟩
      · exact hb)
    violence_patterns 0 hP0
  have hsex := foldl_preserve
    (fun m p => if contains_sub content.toLower p then max m (7/10) else m)
    (fun x => 0 ≤ x ∧ x ≤ 1)
    (fun b p hb => by
      dsimp only
      split
      · exact max_unit_bounds hb ⟨by norm_num, by norm_num⟩
      · exact hb)
    sexual_content_patterns 0 hP0
  refine max_unit_bounds (max_unit_bounds ?_ hhate) (max_unit_bounds hviol hsex)
  split
  · refine max_unit_bounds ?_ ⟨by norm_num, by norm_num⟩
    split
    · exact max_unit_bounds hg0 ⟨by norm_num, by norm_num⟩
    · exact hg0
  · split
    · exact max_unit_bounds hg0 ⟨by norm_num, by norm_num⟩
    · exact hg0

/-- Every spam phrase confidence is nonnegative. -/
theorem spam_patterns_nonneg : ∀ pc ∈ spam_patterns, 0 ≤ pc.2 := by
  with_unfolding_all decide

/-- The phrase-sum component of the spam score is nonnegative. -/
theorem spam_phrase_score_nonneg (lc : String) : 0 ≤ spam_phrase_score lc := by
  unfold spam_phrase_score
  exact foldl_preserve_mem _ (fun x => 0 ≤ x) spam_patterns
    (fun b pc hpc hb => by
      dsimp only
      split
      · exact add_nonneg hb (spam_patterns_nonneg pc hpc)
      · exact hb)
    0 (le_refl 0)

/-- The spam score is always in [0, 1]. -/
theorem spam_score_bounds (content : String) :
    0 ≤ (spam_check content).spam_score ∧ (spam_check content).spam_score ≤ 1 := by
  unfold spam_check
  dsimp only
  constructor
  · refine le_min ?_ (by norm_num)
    have h1 := spam_phrase_score_nonneg content.toLower
    have hurl : (0:ℚ) ≤ (5/10) * (count_urls content : ℚ) := by positivity
    have hrep : (0:ℚ) ≤ (2/10) * ((repeated_words content).length : ℚ) := by
      positivity
    split_ifs <;> linarith
  · exact min_le_right _ _

/-- Bounds preservation for the phone-pattern step. -/
theorem pii_phone_step_bounds (acc : PIIAcc) (ph : List String)
    (h : 0 ≤ acc.conf ∧ acc.conf ≤ 1) :
    0 ≤ (pii_phone_step acc ph).conf ∧ (pii_phone_step acc ph).conf ≤ 1 := by
  unfold pii_phone_step
  split
  · exact h
  · exact max_unit_bounds h ⟨by norm_num, by norm_num⟩

/-- Bounds preservation for the address-pattern step. -/
theorem pii_address_step_bounds (acc : PIIAcc) (ad : List String)
    (h : 0 ≤ acc.conf ∧ acc.conf ≤ 1) :
    0 ≤ (pii_address_step acc ad).conf ∧ (pii_address_step acc ad).conf ≤ 1 := by
  unfold pii_address_step
  split
  · exact h
  · exact max_unit_bounds h ⟨by norm_num, by norm_num⟩

/-- Bounds preservation for the name-pattern step. -/
theorem pii_name_step_bounds (acc : PIIAcc) (ns : List String)
    (h : 0 ≤ acc.conf ∧ acc.conf ≤ 1) :
    0 ≤ (pii_name_step acc ns).conf ∧ (pii_name_step acc ns).conf ≤ 1 := by
  unfold pii_name_step
  split
  · exact h
  · split
    · exact max_unit_bounds h ⟨by norm_num, by norm_num⟩
    · exact h

/-- Bounds preservation for the keyword step. -/
theorem pii_keyword_step_bounds (lc : String) (acc : PIIAcc) (k : String)
    (h : 0 ≤ acc.conf ∧ acc.conf ≤ 1) :
    0 ≤ (pii_keyword_step lc acc k).conf ∧ (pii_keyword_step lc acc k).conf ≤ 1 := by
  unfold pii_keyword_step
  split
  · exact max_unit_bounds h ⟨by norm_num, by norm_num⟩
  · exact h

/-- Bounds for the accumulator reached after the email/phone/ssn/credit-card
stages of `PersonalInfoDetector.check`. -/
theorem pii_acc4_bounds (m : PIIMatches) :
    0 ≤ (pii_acc4_of m).conf ∧ (pii_acc4_of m).conf ≤ 1 := by
  unfold pii_acc4_of
  dsimp only
  split
  · split
    · refine foldl_preserve _ (fun acc : PIIAcc => 0 ≤ acc.conf ∧ acc.conf ≤ 1)
        (fun b a hb => pii_phone_step_bounds _ _ hb) _ _ ?_
      split
      · exact ⟨le_refl 0, by norm_num⟩
      · exact max_unit_bounds ⟨le_refl 0, by norm_num⟩ ⟨by norm_num, by norm_num⟩
    · refine max_unit_bounds ?_ ⟨by norm_num, by norm_num⟩
      refine foldl_preserve _ (fun acc : PIIAcc => 0 ≤ acc.conf ∧ acc.conf ≤ 1)
        (fun b a hb => pii_phone_step_bounds _ _ hb) _ _ ?_
      split
      · exact ⟨le_refl 0, by norm_num⟩
      · exact max_unit_bounds ⟨le_refl 0, by norm_num⟩ ⟨by norm_num, by norm_num⟩
  · refine max_unit_bounds ?_ ⟨by norm_num, by norm_num⟩
    split
    · refine foldl_preserve _ (fun acc : PIIAcc => 0 ≤ acc.conf ∧ acc.conf ≤ 1)
        (fun b a hb => pii_phone_step_bounds _ _ hb) _ _ ?_
      split
      · exact ⟨le_refl 0, by norm_num⟩
      · exact max_unit_bounds ⟨le_refl 0, by norm_num⟩ ⟨by norm_num, by norm_num⟩
    · refine max_unit_bounds ?_ ⟨by norm_num, by norm_num⟩
      refine foldl_preserve _ (fun acc : PIIAcc => 0 ≤ acc.conf ∧ acc.conf ≤ 1)
        (fun b a hb => pii_phone_step_bounds _ _ hb) _ _ ?_
      split
      · exact ⟨le_refl 0, by norm_num⟩
      · exact max_unit_bounds ⟨le_refl 0, by norm_num⟩ ⟨by norm_num, by norm_num⟩

/-- The personal-info confidence is always in [0, 1], whatever the regex
engine reports. -/
theorem pii_conf_bounds (m : PIIMatches) (content : String) :
    0 ≤ (personal_info_check m content).confidence ∧
      (personal_info_check m content).confidence ≤ 1 := by
  unfold personal_info_check
  dsimp only
  refine foldl_preserve _ (fun acc : PIIAcc => 0 ≤ acc.conf ∧ acc.conf ≤ 1)
    (fun b a hb => pii_keyword_step_bounds _ _ _ hb) _ _ ?_
  refine foldl_preserve _ (fun acc : PIIAcc => 0 ≤ acc.conf ∧ acc.conf ≤ 1)
    (fun b a hb => pii_name_step_bounds _ _ hb) _ _ ?_
  refine foldl_preserve _ (fun acc : PIIAcc => 0 ≤ acc.conf ∧ acc.conf ≤ 1)
    (fun b a hb => pii_address_step_bounds _ _ hb) _ _ ?_
  exact pii_acc4_bounds m

-- ---------------------------------------------------------------------------
-- C5: the spam score
-- ---------------------------------------------------------------------------

/-- C5.  The spam score is the sum of the fired signal contributions (phrase
confidences, 0.5 per URL when more than 2 URL-like substrings are found, 0.4
for excessive capitalization, 0.3 for excessive punctuation, 0.2 per distinct
repeated word, a flat 0.6 at most once for suspicious patterns), clipped
above at 1 by `min`; `is_spam` holds iff the score exceeds 0.6; and every
spam flag of an accepted response has MEDIUM severity and confidence equal to
the spam score (and is present exactly when the detector is enabled and
fires). -/
theorem spam_score_characterization :
    (∀ content : String,
      (spam_check content).spam_score =
        min (spam_phrase_score content.toLower +
          (if count_urls content > 2 then (5/10) * (count_urls content : ℚ) else 0) +
          (if (count_upper content : ℚ) / (content.length : ℚ) > 5/10 ∧
            content.length > 20 then 4/10 else 0) +
          (if count_char content '!' > 2 ∨ count_char content '?' > 3 then
            3/10 else 0) +
          (2/10) * ((repeated_words content).length : ℚ) +
          (if has_suspicious_patterns content then 6/10 else 0)) 1 ∧
      ((spam_check content).is_spam = true ↔
        (spam_check content).spam_score > 6/10)) ∧
    (∀ (ext : ExternalDeps) (config : ModerationConfig)
      (request : ContentModerationRequest) (resp : ContentModerationResponse),
      moderate_content ext config request = .ok resp →
      (∀ f ∈ resp.flags, f.type = "spam" →
        f.severity = .MEDIUM ∧
        f.confidence = (spam_check request.content).spam_score ∧
        (spam_check request.content).is_spam = true ∧
        config.enable_spam_detection = true) ∧
      (config.enable_spam_detection = true →
        (spam_check request.content).is_spam = true →
        ∃ f ∈ resp.flags, f.type = "spam" ∧ f.severity = .MEDIUM ∧
          f.confidence = (spam_check request.content).spam_score)) := by
  constructor
  · intro content
    constructor
    · unfold spam_check
      dsimp only
      congr 1
      split_ifs <;> ring
    · unfold spam_check
      dsimp only
      simp
  · intro ext config request resp h
    have hr := moderate_ok_resp ext config request resp h
    constructor
    · intro f hf htype
      rw [hr] at hf
      simp only [mk_response] at hf
      rcases pipeline_flags_mem ext config request f hf with
        ⟨_, _, rfl⟩ | ⟨_, _, rfl⟩ | ⟨_, _, rfl⟩ | ⟨hen, hspam, rfl⟩ |
        ⟨_, _, rfl⟩ | hrule | hplat
      · simp at htype
      · simp at htype
      · simp at htype
      · exact ⟨rfl, rfl, hspam, hen⟩
      · simp at htype
      · obtain ⟨rule, _, _, _, htypeEq, _, _⟩ :=
          check_rules_mem_shape _ _ _ _ hrule
        exact absurd (htypeEq.symm.trans htype)
          (custom_rule_type_ne rule.id "spam" (by decide))
      · obtain ⟨_, _, h3⟩ := check_platform_rules_mem_shape _ _ hplat
        rcases h3 with h3 | h3 | h3 <;>
          exact absurd (h3.symm.trans htype) (by decide)
    · intro hen hspam
      rw [hr]
      simp only [mk_response]
      refine ⟨{ type := "spam"
                severity := .MEDIUM
                confidence := (spam_check request.content).spam_score
                description := MSG_SPAM_DETECTED
                flagged_text := none
                suggestion := some MSG_RECOMMEND_EDIT }, ?_, rfl, rfl, rfl⟩
      unfold pipeline_flags
      simp only [List.mem_append]
      refine Or.inl (Or.inl (Or.inl (Or.inr ?_)))
      simp [hen, hspam]

/-- Witness for C5 on a concrete run: the content fires three spam phrases
and a suspicious pattern, clipping the score at 1. -/
theorem spam_score_characterization_witness :
    ∃ f ∈ spam_resp.flags, f.type = "spam" ∧ f.severity = .MEDIUM ∧
      f.confidence = (spam_check spam_req.content).spam_score :=
  (spam_score_characterization.2 demo_ext cfg_spam spam_req spam_resp
    (by with_unfolding_all rfl)).2 rfl (by with_unfolding_all rfl)

-- ---------------------------------------------------------------------------
-- C1: flag confidences and the uncapped negative_sentiment confidence
-- ---------------------------------------------------------------------------

/-- C1 (amended).  Every flag of an accepted response either has confidence
in [0, 1] or is the `negative_sentiment` flag, whose LOW-severity confidence
is the absolute value of the sentiment comparative score — a quantity the
construction does not cap at 1. -/
theorem flag_confidence_characterization (ext : ExternalDeps)
    (config : ModerationConfig) (request : ContentModerationRequest)
    (resp : ContentModerationResponse)
    (h : moderate_content ext config request = .ok resp) :
    ∀ f ∈ resp.flags,
      (0 ≤ f.confidence ∧ f.confidence ≤ 1) ∨
      (f.type = "negative_sentiment" ∧ f.severity = .LOW ∧
        f.confidence =
          |(sentiment_analyze ext.lexicon request.content).comparative|) := by
  intro f hf
  rw [moderate_ok_resp ext config request resp h] at hf
  simp only [mk_response] at hf
  rcases pipeline_flags_mem ext config request f hf with
    ⟨_, _, rfl⟩ | ⟨_, _, rfl⟩ | ⟨_, _, rfl⟩ | ⟨_, _, rfl⟩ | ⟨_, _, rfl⟩ |
    hrule | hplat
  · exact Or.inl ⟨by norm_num, by norm_num⟩
  · exact Or.inr ⟨rfl, rfl, rfl⟩
  · exact Or.inl (toxicity_score_bounds request.content)
  · exact Or.inl (spam_score_bounds request.content)
  · exact Or.inl (pii_conf_bounds (ext.pii request.content) request.content)
  · obtain ⟨rule, _, _, _, _, _, hconf⟩ := check_rules_mem_shape _ _ _ _ hrule
    rw [hconf]
    exact Or.inl ⟨by norm_num, by norm_num⟩
  · obtain ⟨_, hconf, _⟩ := check_platform_rules_mem_shape _ _ hplat
    rw [hconf]
    exact Or.inl ⟨by norm_num, by norm_num⟩

/-- C1 counterexample: on the accepted request with content `bad` (a
base-lexicon word of valence -3) and sentiment analysis enabled, the returned
response carries a flag whose confidence is 3, outside [0, 1]. -/
theorem flag_confidence_counterexample :
    moderate_content demo_ext cfg_sentiment c1_req = .ok c1_resp ∧
    ∃ f ∈ c1_resp.flags, ¬(0 ≤ f.confidence ∧ f.confidence ≤ 1) := by
  refine ⟨by with_unfolding_all rfl,
    ⟨{ type := "negative_sentiment"
       severity := .LOW
       confidence := 3
       description := MSG_NEGATIVE_SENTIMENT
       flagged_text := none
       suggestion := some MSG_RECOMMEND_REVIEW }, ?_, ?_⟩⟩
  · with_unfolding_all decide
  · intro hcon
    exact absurd hcon.2 (by norm_num)

/-- Witness for C1's amended statement on a concrete run, instantiated at the
concrete HIGH toxicity flag of that run. -/
theorem flag_confidence_characterization_witness :
    (0 ≤ ({ type := "toxicity", severity := .HIGH, confidence := 7/10,
            description := MSG_TOXICITY_DETECTED,
            suggestion := some MSG_RECOMMEND_REPLACE } : ModerationFlag).confidence ∧
      ({ type := "toxicity", severity := .HIGH, confidence := 7/10,
         description := MSG_TOXICITY_DETECTED,
         suggestion := some MSG_RECOMMEND_REPLACE } : ModerationFlag).confidence ≤ 1) ∨
    (({ type := "toxicity", severity := .HIGH, confidence := 7/10,
        description := MSG_TOXICITY_DETECTED,
        suggestion := some MSG_RECOMMEND_REPLACE } : ModerationFlag).type =
          "negative_sentiment" ∧
      ({ type := "toxicity", severity := .HIGH, confidence := 7/10,
         description := MSG_TOXICITY_DETECTED,
         suggestion := some MSG_RECOMMEND_REPLACE } : ModerationFlag).severity = .LOW ∧
      ({ type := "toxicity", severity := .HIGH, confidence := 7/10,
         description := MSG_TOXICITY_DETECTED,
         suggestion := some MSG_RECOMMEND_REPLACE } : ModerationFlag).confidence =
        |(sentiment_analyze demo_ext.lexicon demo_req.content).comparative|) :=
  flag_confidence_characterization demo_ext cfg_tox demo_req demo_resp
    (by with_unfolding_all rfl)
    { type := "toxicity", severity := .HIGH, confidence := 7/10,
      description := MSG_TOXICITY_DETECTED,
      suggestion := some MSG_RECOMMEND_REPLACE }
    (by with_unfolding_all decide)
